import Mathlib

/-!
Verification of the importnb loader (src/importnb/loader.py) against its
specification.  The development shallowly embeds the two core pieces of the
loader:

* `visit` — the cell translator `NotebookLoader.visit`, which turns a decoded
  notebook mapping into a single module-level statement sequence, and
* `advanced_exec_module` — the execution wrapper produced by the
  `advanced_exec_module` decorator, which pre-populates the module namespace,
  attaches the capture record, runs the compiled statements and converts
  tolerated exceptions into a recorded value.

Python values, namespaces and exceptions are modelled explicitly; the host
grammar (`ast.parse`) and the text normalisation (`dedent` from the decoder
module) are parameters of the translator, since their internals are outside
the translated core.
-/

namespace ImportNb

/-- Python exception classes relevant to the loader.  `importNbException` is
the class `ImportNbException(BaseException)` defined in loader.py; the others
are host builtins. -/
inductive ExcClass where
  | baseException
  | exception
  | valueError
  | typeError
  | importNbException
  deriving DecidableEq, Repr, BEq

/-- The superclass chain of each exception class (the class itself included).
`ImportNbException` derives directly from `BaseException`; `ValueError` and
`TypeError` derive from `Exception`. -/
def superclasses : ExcClass → List ExcClass
  | .baseException => [.baseException]
  | .exception => [.exception, .baseException]
  | .valueError => [.valueError, .exception, .baseException]
  | .typeError => [.typeError, .exception, .baseException]
  | .importNbException => [.importNbException, .baseException]

/-- `isSubclassOf c d` holds when an instance of class `c` is caught by an
except clause for class `d`. -/
def isSubclassOf (c d : ExcClass) : Bool :=
  (superclasses c).contains d

/-- A raised exception instance: its class and its message. -/
structure ExcInstance where
  cls : ExcClass
  msg : String
  deriving DecidableEq, Repr

/-- The record produced by `capture_output` in the capture module (class
`CapturedIO` there).  Only the configuration flags matter for the claims; the
wrapper stores the record under the module attribute `_capture`. -/
structure CaptureRecord where
  stdout : Bool
  stderr : Bool
  display : Bool
  deriving DecidableEq, Repr

/-- `capture_output(stdout=..., stderr=..., display=...)` — creates the
capture record for one execution scope. -/
def capture_output (stdout stderr display : Bool) : CaptureRecord :=
  ⟨stdout, stderr, display⟩

/-- Python values stored in a module namespace. -/
inductive Value where
  | pyNone
  | int (n : Int)
  | str (s : String)
  | exc (e : ExcInstance)
  | capture (c : CaptureRecord)
  deriving DecidableEq, Repr

/-- A module namespace (`module.__dict__`): a finite mapping from attribute
names to values, modelled as a lookup function. -/
def PyNamespace := String → Option Value

/-- Attribute assignment `module.k = v` / dictionary item assignment. -/
def nsSet (ns : PyNamespace) (k : String) (v : Value) : PyNamespace :=
  fun q => if q = k then some v else ns q

/-- `ns.update(g)` for an item sequence `g`: later items win. -/
def dictUpdate (ns : PyNamespace) (g : List (String × Value)) : PyNamespace :=
  g.foldl (fun n p => nsSet n p.1 p.2) ns

/-- Lookup of the last binding of `k` in an item sequence (the binding that
`dictUpdate` leaves in place). -/
def lookupLast : List (String × Value) → String → Option Value
  | [], _ => Option.none
  | p :: t, k =>
      match lookupLast t k with
      | some v => some v
      | Option.none => if p.1 = k then some p.2 else Option.none

/-- Statements of the unified syntax tree.  Each carries the optional
`lineno` attribute of the corresponding ast node (`none` when the attribute
has not been set yet, as for a freshly constructed markdown expression). -/
inductive Stmt where
  | assign (lineno : Option Int) (target : String) (value : Value)
  | exprConst (lineno : Option Int) (text : String)
  | raiseStmt (lineno : Option Int) (e : ExcInstance)
  deriving DecidableEq, Repr

/-- The `lineno` attribute of a statement. -/
def Stmt.lineno : Stmt → Option Int
  | .assign l _ _ => l
  | .exprConst l _ => l
  | .raiseStmt l _ => l

/-- Replace the `lineno` attribute of a statement. -/
def Stmt.setLineno : Stmt → Option Int → Stmt
  | .assign _ t v, l => .assign l t v
  | .exprConst _ s, l => .exprConst l s
  | .raiseStmt _ e, l => .raiseStmt l e

/-- One step of `ast.fix_missing_locations` at statement level: a missing
`lineno` is filled in with the parent default `1`. -/
def fixStmt (s : Stmt) : Stmt :=
  s.setLineno (some (s.lineno.getD 1))

/-- One step of `ast.increment_lineno`: `child.lineno = getattr(child,
"lineno", 0) + n`. -/
def incStmt (n : Int) (s : Stmt) : Stmt :=
  s.setLineno (some (s.lineno.getD 0 + n))

/-- A decoded JSON mapping as far as `NotebookLoader.visit` inspects it: the
optional `cells`, `source`, `cell_type` and `metadata` keys.  `metadata`
itself is a mapping of which only the optional `lineno` entry is read
(`cell["metadata"].get("lineno", 1)`), so it is modelled as
`Option (Option Int)`: `none` means the `metadata` key is absent (its lookup
raises `KeyError`), `some none` means metadata is present without a `lineno`
entry. -/
inductive JDict where
  | mk (cells : Option (List JDict)) (source : Option (List String))
      (cell_type : Option String) (metadata : Option (Option Int))

/-- The `cells` key of a mapping. -/
def JDict.cells : JDict → Option (List JDict)
  | .mk c _ _ _ => c

/-- The `source` key of a mapping. -/
def JDict.source : JDict → Option (List String)
  | .mk _ s _ _ => s

/-- The `cell_type` key of a mapping. -/
def JDict.cell_type : JDict → Option String
  | .mk _ _ t _ => t

/-- The `metadata` key of a mapping. -/
def JDict.metadata : JDict → Option (Option Int)
  | .mk _ _ _ m => m

/-- The Python value held by the local variable `node` inside `visit`: either
still the input mapping, or an ast `Module`, or a single ast statement (the
synthesized markdown expression). -/
inductive PyNode where
  | dict (d : JDict)
  | modNode (body : List Stmt)
  | exprNode (s : Stmt)

/-- Errors the translator can raise: `KeyError` from a missing mapping key,
`AttributeError` from handing a non-ast object to the ast machinery, and the
host grammar's parse error (`SyntaxError`, carrying only the host message). -/
inductive Err where
  | keyError (key : String)
  | attributeError (attr : String)
  | hostParseError (msg : String)
  deriving DecidableEq, Repr

/-- The final step of `visit`:
`ast.fix_missing_locations(super().visit(node))`.  `super().visit` is
`ast.NodeTransformer.visit`; the loader defines no per-type visitor, so for
ast nodes the transformer is the identity, while a mapping that was never
converted reaches `iter_fields`, whose access to `node._fields` raises
`AttributeError`.  `fix_missing_locations` then fills missing statement
`lineno` attributes with the default `1`. -/
def transformFix : PyNode → Except Err PyNode
  | .dict _ => .error (.attributeError "_fields")
  | .modNode b => .ok (.modNode (b.map fixStmt))
  | .exprNode s => .ok (.exprNode (fixStmt s))

/-- `getattr(_node, "body", [_node])`: the fragment a visited cell
contributes to the module body.  A `dict` node never reaches this point
because `transformFix` has already raised `AttributeError` on it. -/
def PyNode.bodyList : PyNode → List Stmt
  | .modNode b => b
  | .exprNode s => [s]
  | .dict _ => []

/-- `ast.increment_lineno(_node, n)` on the value returned by visiting one
cell. -/
def incNode (n : Int) : PyNode → PyNode
  | .modNode b => .modNode (b.map (incStmt n))
  | .exprNode s => .exprNode (incStmt n s)
  | .dict d => .dict d

mutual

/-- `NotebookLoader.visit` on a decoded mapping.  `fmt` is the loader's
`format` attribute (`dedent` from the decoder module) and `parse` is the host
grammar (`ast.parse`); both are external to the translated core and enter as
parameters.  Branch structure follows the source: a mapping with a `cells`
key is a document whose cells are visited and concatenated; otherwise a
mapping with a `source` key is a cell, converted according to `cell_type`
(`markdown` to a constant expression, `code` through `fmt` and `parse`, any
other type left unconverted); otherwise the mapping becomes an empty module.
The result then passes through `transformFix`. -/
def visit (fmt : String → String) (parse : String → Except String (List Stmt)) :
    JDict → Except Err PyNode
  | .mk (some cells) _ _ _ => do
      let body ← visitCells fmt parse cells
      transformFix (.modNode body)
  | .mk none (some src) ct md => do
      let source := String.join src
      match ct with
      | none => .error (.keyError "cell_type")
      | some t =>
          if t = "markdown" then
            transformFix (.exprNode (.exprConst none source))
          else if t = "code" then
            match parse (fmt source) with
            | .error m => .error (.hostParseError m)
            | .ok stmts => transformFix (.modNode stmts)
          else
            transformFix (.dict (.mk none (some src) ct md))
  | .mk none none _ _ => transformFix (.modNode [])

/-- The loop over `node["cells"]`: each cell is visited, shifted by
`cell["metadata"].get("lineno", 1)` via `ast.increment_lineno`, and its
fragment `getattr(_node, "body", [_node])` is appended to the module body. -/
def visitCells (fmt : String → String)
    (parse : String → Except String (List Stmt)) :
    List JDict → Except Err (List Stmt)
  | [] => .ok []
  | c :: rest => do
      let node ← visit fmt parse c
      match c.metadata with
      | none => .error (.keyError "metadata")
      | some md => do
          let node := incNode (md.getD 1) node
          let rest' ← visitCells fmt parse rest
          .ok (node.bodyList ++ rest')

end

/-- Execution of a compiled statement sequence against a namespace: returns
the mutated namespace and, when a statement raised, the exception instance
(statements after a raise are not reached). -/
def runStmts : List Stmt → PyNamespace → PyNamespace × Option ExcInstance
  | [], ns => (ns, Option.none)
  | .assign _ k v :: rest, ns => runStmts rest (nsSet ns k v)
  | .exprConst _ _ :: rest, ns => runStmts rest ns
  | .raiseStmt _ e :: _, ns => (ns, some e)

/-- `except loader.exceptions as Exception` — whether the configured
tolerance set catches a raised instance. -/
def excMatches (cfg : List ExcClass) (e : ExcInstance) : Bool :=
  cfg.any (fun c => isSubclassOf e.cls c)

/-- The `Notebook` loader configuration (the keyword arguments of
`Notebook.__init__` together with their defaults; `exceptions` defaults to
`ImportNbException`). -/
structure Notebook where
  stdout : Bool := false
  stderr : Bool := false
  display : Bool := false
  lazy : Bool := false
  globals : List (String × Value) := []
  exceptions : List ExcClass := [.importNbException]

/-- `Notebook.create_module`: the freshly created module (with its
spec-initialized attributes, here the abstract `fresh` namespace) is updated
with the loader-configured globals. -/
def create_module (loader : Notebook) (fresh : PyNamespace) : PyNamespace :=
  dictUpdate fresh loader.globals

/-- The `_exec_module` produced by the `advanced_exec_module` decorator:
set `module._exception = None`; merge the call-time globals with
`module.__dict__.update(globals)`; open the capture scope and store the
capture record as `module._capture`; execute the compiled statements; when
execution raises an instance matched by `loader.exceptions`, record it in
`module._exception` instead of propagating, otherwise let it propagate (the
second component of the result). -/
def advanced_exec_module (loader : Notebook) (code : List Stmt)
    (module : PyNamespace) (globals : List (String × Value)) :
    PyNamespace × Option ExcInstance :=
  let module := nsSet module "_exception" Value.pyNone
  let module := dictUpdate module globals
  let out := capture_output loader.stdout loader.stderr loader.display
  let module := nsSet module "_capture" (Value.capture out)
  match runStmts code module with
  | (m, Option.none) => (m, Option.none)
  | (m, some e) =>
      if excMatches loader.exceptions e then
        (nsSet m "_exception" (Value.exc e), Option.none)
      else
        (m, some e)

/-- One whole load at the execution level: create the module namespace with
the loader-configured globals, then run the execution wrapper with the
call-time globals. -/
def exec_module (loader : Notebook) (code : List Stmt) (fresh : PyNamespace)
    (globals : List (String × Value)) : PyNamespace × Option ExcInstance :=
  advanced_exec_module loader code (create_module loader fresh) globals

/-! ### Helper values for concrete runs -/

/-- The empty module namespace. -/
def emptyNs : PyNamespace := fun _ => Option.none

/-- A no-op text normalisation (the decoder's `identity`). -/
def fmtId : String → String := id

/-- A host grammar that rejects every input, standing in for `ast.parse` on
text it cannot parse. -/
def parseFail : String → Except String (List Stmt) := fun _ =>
  .error "invalid syntax"

/-- A tiny concrete host grammar: it accepts exactly the text
`x = 1 + 1` (one assignment on line 1) and rejects everything else. -/
def parseDemo : String → Except String (List Stmt) := fun s =>
  if s = "x = 1 + 1" then .ok [.assign (some 1) "x" (Value.int 2)]
  else .error "invalid syntax"

/-- The module namespace as it stands when the compiled statements start
executing inside `advanced_exec_module`: `_exception` initialised to `None`,
the call-time globals merged on top, and the capture record attached as
`_capture`. -/
def preExecNs (loader : Notebook) (module : PyNamespace)
    (globals : List (String × Value)) : PyNamespace :=
  nsSet (dictUpdate (nsSet module "_exception" Value.pyNone) globals)
    "_capture"
    (Value.capture (capture_output loader.stdout loader.stderr loader.display))

/-- A loader configured to tolerate `ValueError` (as in
`Notebook(exceptions=ValueError)`), all other options default. -/
def loaderVE : Notebook := { exceptions := [ExcClass.valueError] }

/-- The attribute names a statement sequence can rebind. -/
def assignedNames : List Stmt → List String
  | [] => []
  | .assign _ k _ :: rest => k :: assignedNames rest
  | .exprConst _ _ :: rest => assignedNames rest
  | .raiseStmt _ _ :: rest => assignedNames rest

/-! ### Namespace lemmas -/

theorem nsSet_apply_same (ns : PyNamespace) (k : String) (v : Value) :
    nsSet ns k v k = some v := by
  simp [nsSet]

theorem nsSet_apply_other (ns : PyNamespace) (k q : String) (v : Value)
    (h : q ≠ k) : nsSet ns k v q = ns q := by
  simp [nsSet, h]

theorem dictUpdate_lookup (g : List (String × Value)) (ns : PyNamespace)
    (k : String) :
    dictUpdate ns g k =
      match lookupLast g k with
      | some v => some v
      | Option.none => ns k := by
  induction g generalizing ns with
  | nil => rfl
  | cons p t ih =>
      show dictUpdate (nsSet ns p.1 p.2) t k = _
      rw [ih]
      cases h : lookupLast t k with
      | some v => simp [lookupLast, h]
      | none =>
          by_cases hk : p.1 = k
          · subst hk
            simp [lookupLast, h, nsSet]
          · simp [lookupLast, h, nsSet, hk]
            intro hq
            exact absurd hq.symm hk

theorem lookupLast_eq_none_of_not_mem (g : List (String × Value)) (k : String)
    (h : k ∉ g.map Prod.fst) : lookupLast g k = Option.none := by
  induction g with
  | nil => rfl
  | cons p t ih =>
      simp only [List.map_cons, List.mem_cons, not_or] at h
      have hp : p.1 ≠ k := fun hq => h.1 hq.symm
      simp [lookupLast, ih h.2, hp]

theorem dictUpdate_isSome (g : List (String × Value)) (ns : PyNamespace)
    (k : String) (h : (ns k).isSome) : ((dictUpdate ns g) k).isSome := by
  rw [dictUpdate_lookup]
  cases hl : lookupLast g k <;> simp [h]

/-! ### Execution lemmas -/

theorem runStmts_append (a b : List Stmt) (ns : PyNamespace) :
    runStmts (a ++ b) ns =
      match runStmts a ns with
      | (m, Option.none) => runStmts b m
      | (m, some e) => (m, some e) := by
  induction a generalizing ns with
  | nil => rfl
  | cons s rest ih =>
      cases s with
      | assign l t v => simpa [runStmts] using ih (nsSet ns t v)
      | exprConst l t => simpa [runStmts] using ih ns
      | raiseStmt l e => simp [runStmts]

theorem runStmts_preserves (code : List Stmt) (ns : PyNamespace) (k : String)
    (h : k ∉ assignedNames code) : (runStmts code ns).1 k = ns k := by
  induction code generalizing ns with
  | nil => rfl
  | cons s rest ih =>
      cases s with
      | assign l t v =>
          simp only [assignedNames, List.mem_cons, not_or] at h
          rw [show runStmts (.assign l t v :: rest) ns
              = runStmts rest (nsSet ns t v) from rfl]
          rw [ih _ h.2, nsSet_apply_other _ _ _ _ h.1]
      | exprConst l t =>
          simp only [assignedNames] at h
          exact ih ns h
      | raiseStmt l e => rfl

theorem runStmts_isSome (code : List Stmt) (ns : PyNamespace) (k : String)
    (h : (ns k).isSome) : ((runStmts code ns).1 k).isSome := by
  induction code generalizing ns with
  | nil => exact h
  | cons s rest ih =>
      cases s with
      | assign l t v =>
          refine ih (nsSet ns t v) ?_
          by_cases hk : k = t
          · subst hk; simp [nsSet]
          · rw [nsSet_apply_other _ _ _ _ hk]; exact h
      | exprConst l t => exact ih ns h
      | raiseStmt l e => exact h

/-! ### Exception-matching lemmas -/

theorem isSubclassOf_self (c : ExcClass) : isSubclassOf c c = true := by
  cases c <;> rfl

theorem excMatches_of_mem {cfg : List ExcClass} {e : ExcInstance}
    {c : ExcClass} (hc : c ∈ cfg) (h : isSubclassOf e.cls c = true) :
    excMatches cfg e = true := by
  simp only [excMatches, List.any_eq_true]
  exact ⟨c, hc, h⟩

theorem excMatches_default (e : ExcInstance)
    (h : e.cls ≠ ExcClass.importNbException) :
    excMatches [ExcClass.importNbException] e = false := by
  cases e with
  | mk cls msg => cases cls <;> first | rfl | exact absurd rfl h

/-! ### Execution-wrapper lemmas -/

theorem advanced_exec_module_run (loader : Notebook) (code : List Stmt)
    (module : PyNamespace) (globals : List (String × Value)) :
    advanced_exec_module loader code module globals =
      match runStmts code (preExecNs loader module globals) with
      | (m, Option.none) => (m, Option.none)
      | (m, some e) =>
          if excMatches loader.exceptions e then
            (nsSet m "_exception" (Value.exc e), Option.none)
          else
            (m, some e) := rfl

theorem advanced_fst_apply (loader : Notebook) (code : List Stmt)
    (module : PyNamespace) (globals : List (String × Value)) (k : String)
    (hk : k ≠ "_exception") :
    (advanced_exec_module loader code module globals).1 k
      = (runStmts code (preExecNs loader module globals)).1 k := by
  rw [advanced_exec_module_run]
  rcases hrun : runStmts code (preExecNs loader module globals) with ⟨m, r⟩
  cases r with
  | none => rfl
  | some e =>
      by_cases hc : excMatches loader.exceptions e = true
      · simp [hc, nsSet_apply_other _ _ _ _ hk]
      · simp [hc]

theorem preExecNs_apply (loader : Notebook) (module : PyNamespace)
    (globals : List (String × Value)) (k : String) (hk : k ≠ "_capture") :
    preExecNs loader module globals k
      = dictUpdate (nsSet module "_exception" Value.pyNone) globals k := by
  unfold preExecNs
  exact nsSet_apply_other _ _ _ _ hk

theorem advanced_fst_isSome (loader : Notebook) (code : List Stmt)
    (module : PyNamespace) (globals : List (String × Value)) (k : String)
    (h : ((preExecNs loader module globals) k).isSome) :
    ((advanced_exec_module loader code module globals).1 k).isSome := by
  rw [advanced_exec_module_run]
  rcases hrun : runStmts code (preExecNs loader module globals) with ⟨m, r⟩
  have hm : (m k).isSome := by
    have hh := runStmts_isSome code (preExecNs loader module globals) k h
    rw [hrun] at hh
    exact hh
  cases r with
  | none => exact hm
  | some e =>
      cases hc : excMatches loader.exceptions e with
      | true =>
          simp only [hc, if_true]
          by_cases hk : k = "_exception"
          · subst hk
            simp [nsSet]
          · rw [nsSet_apply_other _ _ _ _ hk]
            exact hm
      | false =>
          simp only [hc]
          exact hm

/-! ### Translator lemmas -/

theorem visitCells_cons (fmt : String → String)
    (parse : String → Except String (List Stmt)) (c : JDict)
    (rest : List JDict) :
    visitCells fmt parse (c :: rest) =
      match visit fmt parse c with
      | .error e => .error e
      | .ok node =>
          match c.metadata with
          | Option.none => .error (.keyError "metadata")
          | some md =>
              match visitCells fmt parse rest with
              | .error e => .error e
              | .ok rest' => .ok ((incNode (md.getD 1) node).bodyList ++ rest') := by
  show (do
      let node ← visit fmt parse c
      match c.metadata with
      | Option.none => (.error (.keyError "metadata") : Except Err (List Stmt))
      | some md => do
          let node := incNode (md.getD 1) node
          let rest' ← visitCells fmt parse rest
          .ok (node.bodyList ++ rest')) = _
  cases visit fmt parse c with
  | error e => rfl
  | ok node =>
      cases c.metadata with
      | none => rfl
      | some md =>
          show (do
              let rest' ← visitCells fmt parse rest
              (.ok ((incNode (md.getD 1) node).bodyList ++ rest')
                : Except Err (List Stmt))) = _
          cases visitCells fmt parse rest <;> rfl

theorem visitCells_append (fmt : String → String)
    (parse : String → Except String (List Stmt)) (a b : List JDict) :
    visitCells fmt parse (a ++ b) =
      match visitCells fmt parse a, visitCells fmt parse b with
      | .ok sa, .ok sb => .ok (sa ++ sb)
      | .error e, _ => .error e
      | .ok _, .error e => .error e := by
  induction a with
  | nil =>
      show visitCells fmt parse b = _
      cases visitCells fmt parse b <;> rfl
  | cons c t ih =>
      rw [List.cons_append, visitCells_cons, visitCells_cons, ih]
      cases visit fmt parse c with
      | error e => rfl
      | ok node =>
          cases c.metadata with
          | none => rfl
          | some md =>
              cases visitCells fmt parse t with
              | error e => rfl
              | ok st =>
                  cases visitCells fmt parse b with
                  | error e => rfl
                  | ok sb => simp

theorem Stmt.lineno_setLineno (s : Stmt) (l : Option Int) :
    (s.setLineno l).lineno = l := by
  cases s <;> rfl

/-! ### Claim C1 -/

/-- C1 (counterexample): a cell whose `cell_type` is neither `markdown` nor
`code` but which has a `source` key is not skipped: the unconverted cell
mapping reaches the ast transformer and translation fails with
`AttributeError` (the access to `_fields` on a dict). -/
theorem c1_counterexample :
    visit fmtId parseFail
        (JDict.mk
          (some [JDict.mk Option.none (some ["1"]) (some "raw")
            (some Option.none)])
          Option.none Option.none Option.none)
      = .error (.attributeError "_fields") := rfl

/-- C1 (amended): a cell that lacks a `source` key contributes no fragment
and is skipped without error, translation of the remaining cells proceeding
normally; but a cell that has a `source` key with an unrecognized
`cell_type` makes translation fail with `AttributeError`. -/
theorem c1_amended (fmt : String → String)
    (parse : String → Except String (List Stmt)) (pre rest : List JDict)
    (ct : Option String) (md : Option Int) (src : List String) (t : String)
    (md2 : Option (Option Int)) (h1 : t ≠ "markdown") (h2 : t ≠ "code") :
    visitCells fmt parse
        (pre ++ JDict.mk Option.none Option.none ct (some md) :: rest)
      = visitCells fmt parse (pre ++ rest)
    ∧ visit fmt parse (JDict.mk Option.none (some src) (some t) md2)
      = .error (.attributeError "_fields") := by
  constructor
  · have hskip : visitCells fmt parse
        (JDict.mk Option.none Option.none ct (some md) :: rest)
        = visitCells fmt parse rest := by
      rw [visitCells_cons]
      have hv : visit fmt parse (JDict.mk Option.none Option.none ct (some md))
          = .ok (.modNode []) := rfl
      rw [hv]
      show (match visitCells fmt parse rest with
        | .error e => (.error e : Except Err (List Stmt))
        | .ok rest' =>
            .ok ((incNode (md.getD 1) (.modNode [])).bodyList ++ rest')) = _
      cases visitCells fmt parse rest <;> simp [incNode, PyNode.bodyList]
    rw [visitCells_append, visitCells_append, hskip]
  · show (if t = "markdown" then
        transformFix (.exprNode (.exprConst Option.none (String.join src)))
      else if t = "code" then
        match parse (fmt (String.join src)) with
        | .error m => (.error (.hostParseError m) : Except Err PyNode)
        | .ok stmts => transformFix (.modNode stmts)
      else
        transformFix
          (.dict (JDict.mk Option.none (some src) (some t) md2))) = _
    rw [if_neg h1, if_neg h2]
    rfl

/-- C1 witness: concrete instance of the amended claim — a sourceless cell
of type `weird` is skipped, while a `raw` cell with a source is an error. -/
theorem c1_witness :
    visitCells fmtId parseFail
        ([] ++ JDict.mk Option.none Option.none (some "weird")
          (some Option.none) :: [])
      = visitCells fmtId parseFail ([] ++ [])
    ∧ visit fmtId parseFail
        (JDict.mk Option.none (some ["1"]) (some "raw") (some Option.none))
      = .error (.attributeError "_fields") :=
  c1_amended fmtId parseFail [] [] (some "weird") Option.none ["1"] "raw"
    (some Option.none) (by decide) (by decide)

/-! ### Claim C2 -/

/-- C2 (counterexample): a code cell the host grammar cannot parse makes
translation fail with the host's own parse error, unchanged; the same error
value results whether the failing cell is the first cell or the second, so
the error carries no cell index (and the source defines no
`CellSyntaxError` wrapper at all). -/
theorem c2_counterexample :
    visit fmtId parseFail
        (JDict.mk
          (some [JDict.mk Option.none (some ["(\n"]) (some "code")
            (some Option.none)])
          Option.none Option.none Option.none)
      = .error (.hostParseError "invalid syntax")
    ∧ visit fmtId parseFail
        (JDict.mk
          (some [JDict.mk Option.none (some ["# intro"]) (some "markdown")
              (some Option.none),
            JDict.mk Option.none (some ["(\n"]) (some "code")
              (some Option.none)])
          Option.none Option.none Option.none)
      = .error (.hostParseError "invalid syntax") := ⟨rfl, rfl⟩

/-- C2 (amended): for every code cell whose (normalised) source text the host
grammar rejects, translation of the containing document fails with the host
parse error propagated unchanged, carrying no cell index. -/
theorem c2_amended (fmt : String → String)
    (parse : String → Except String (List Stmt)) (pre rest : List JDict)
    (src : List String) (md : Option (Option Int)) (sPre : List Stmt)
    (m : String) (ds : Option (List String)) (dt : Option String)
    (dm : Option (Option Int))
    (hpre : visitCells fmt parse pre = .ok sPre)
    (hparse : parse (fmt (String.join src)) = .error m) :
    visit fmt parse
        (JDict.mk
          (some (pre ++
            JDict.mk Option.none (some src) (some "code") md :: rest))
          ds dt dm)
      = .error (.hostParseError m) := by
  have hcell : visit fmt parse
      (JDict.mk Option.none (some src) (some "code") md)
      = .error (.hostParseError m) := by
    show (match parse (fmt (String.join src)) with
      | .error mm => (.error (.hostParseError mm) : Except Err PyNode)
      | .ok stmts => transformFix (.modNode stmts)) = _
    rw [hparse]
  have hcells : visitCells fmt parse
      (pre ++ JDict.mk Option.none (some src) (some "code") md :: rest)
      = .error (.hostParseError m) := by
    rw [visitCells_append, hpre, visitCells_cons, hcell]
  show (do
      let body ← visitCells fmt parse
        (pre ++ JDict.mk Option.none (some src) (some "code") md :: rest)
      transformFix (.modNode body)) = _
  rw [hcells]
  rfl

/-- C2 witness: concrete instance of the amended claim, the failing cell
sitting at index one. -/
theorem c2_witness :
    visit fmtId parseDemo
        (JDict.mk
          (some ([JDict.mk Option.none (some ["x = 1 + 1"]) (some "code")
              (some Option.none)] ++
            JDict.mk Option.none (some ["(\n"]) (some "code")
              (some Option.none) :: []))
          Option.none Option.none Option.none)
      = .error (.hostParseError "invalid syntax") :=
  c2_amended fmtId parseDemo
    [JDict.mk Option.none (some ["x = 1 + 1"]) (some "code")
      (some Option.none)]
    [] ["(\n"] (some Option.none)
    [Stmt.assign (some 2) "x" (Value.int 2)] "invalid syntax"
    Option.none Option.none Option.none rfl rfl

/-! ### Claim C3 -/

/-- C3: every statement parsed from a code cell with metadata `lineno` `L`
(default `1` when the entry is absent) has its line number rewritten by
adding `L`, so a line number reported from the translated fragment, minus
`L`, is the statement's 1-based line position in the cell's parsed source
text. -/
theorem c3_lineno_offset (fmt : String → String)
    (parse : String → Except String (List Stmt)) (pre rest : List JDict)
    (src : List String) (mdL : Option Int) (stmts sPre sRest : List Stmt)
    (hpre : visitCells fmt parse pre = .ok sPre)
    (hparse : parse (fmt (String.join src)) = .ok stmts)
    (hrest : visitCells fmt parse rest = .ok sRest) :
    visitCells fmt parse
        (pre ++
          JDict.mk Option.none (some src) (some "code") (some mdL) :: rest)
      = .ok (sPre ++
          (stmts.map (fun s => incStmt (mdL.getD 1) (fixStmt s)) ++ sRest))
    ∧ ∀ s ∈ stmts, ∀ k : Int, s.lineno = some k →
        (incStmt (mdL.getD 1) (fixStmt s)).lineno = some (k + mdL.getD 1)
        ∧ k + mdL.getD 1 - mdL.getD 1 = k := by
  constructor
  · have hcell : visit fmt parse
        (JDict.mk Option.none (some src) (some "code") (some mdL))
        = .ok (.modNode (stmts.map fixStmt)) := by
      show (match parse (fmt (String.join src)) with
        | .error mm => (.error (.hostParseError mm) : Except Err PyNode)
        | .ok stmts => transformFix (.modNode stmts)) = _
      rw [hparse]
      rfl
    rw [visitCells_append, hpre, visitCells_cons, hcell, hrest]
    simp [incNode, PyNode.bodyList, JDict.metadata, List.map_map,
      Function.comp]
  · intro s _ k hk
    refine ⟨?_, by omega⟩
    simp [incStmt, fixStmt, Stmt.lineno_setLineno, hk]

/-- C3 witness: a one-statement code cell with metadata lineno `5`; the
statement parsed at line `1` is reported at line `6`, and `6 - 5 = 1`. -/
theorem c3_witness :
    visitCells fmtId parseDemo
        ([] ++
          JDict.mk Option.none (some ["x = 1 + 1"]) (some "code")
            (some (some 5)) :: [])
      = .ok ([] ++
          ([Stmt.assign (some 1) "x" (Value.int 2)].map
            (fun s => incStmt ((some (5 : Int)).getD 1) (fixStmt s)) ++ []))
    ∧ (incStmt ((some (5 : Int)).getD 1)
        (fixStmt (Stmt.assign (some 1) "x" (Value.int 2)))).lineno
        = some (1 + (some (5 : Int)).getD 1)
    ∧ (1 : Int) + (some (5 : Int)).getD 1 - (some (5 : Int)).getD 1 = 1 :=
  ⟨(c3_lineno_offset fmtId parseDemo [] [] ["x = 1 + 1"] (some 5)
      [Stmt.assign (some 1) "x" (Value.int 2)] [] [] rfl rfl rfl).1,
   (c3_lineno_offset fmtId parseDemo [] [] ["x = 1 + 1"] (some 5)
      [Stmt.assign (some 1) "x" (Value.int 2)] [] [] rfl rfl rfl).2
     (Stmt.assign (some 1) "x" (Value.int 2)) (List.mem_singleton.mpr rfl)
     1 rfl⟩

/-! ### Claim C4 -/

/-- C4: when the configured exception set contains `ValueError` and the
compiled statements raise `ValueError("boom")`, the load does not propagate
the error, the namespace's `_exception` attribute is set to the caught
instance, and no statement after the raising one is executed — the result is
determined by the statements before the raise alone, whatever follows it. -/
theorem c4_tolerated_valueerror (loader : Notebook) (pre post : List Stmt)
    (l : Option Int) (fresh : PyNamespace) (g : List (String × Value))
    (hv : ExcClass.valueError ∈ loader.exceptions)
    (hpre : (runStmts pre
        (preExecNs loader (create_module loader fresh) g)).2 = Option.none) :
    exec_module loader
        (pre ++ Stmt.raiseStmt l ⟨.valueError, "boom"⟩ :: post) fresh g
      = (nsSet
          (runStmts pre (preExecNs loader (create_module loader fresh) g)).1
          "_exception" (Value.exc ⟨.valueError, "boom"⟩), Option.none)
    ∧ (exec_module loader
        (pre ++ Stmt.raiseStmt l ⟨.valueError, "boom"⟩ :: post) fresh g).1
        "_exception" = some (Value.exc ⟨.valueError, "boom"⟩) := by
  have hrun : runStmts (pre ++ Stmt.raiseStmt l ⟨.valueError, "boom"⟩ :: post)
      (preExecNs loader (create_module loader fresh) g)
      = ((runStmts pre (preExecNs loader (create_module loader fresh) g)).1,
        some ⟨.valueError, "boom"⟩) := by
    rw [runStmts_append]
    rcases h : runStmts pre (preExecNs loader (create_module loader fresh) g)
      with ⟨m, r⟩
    have hr : r = Option.none := by
      rw [h] at hpre
      exact hpre
    subst hr
    rfl
  have hcaught : excMatches loader.exceptions ⟨.valueError, "boom"⟩ = true :=
    excMatches_of_mem hv (isSubclassOf_self _)
  have hmain : exec_module loader
      (pre ++ Stmt.raiseStmt l ⟨.valueError, "boom"⟩ :: post) fresh g
      = (nsSet
          (runStmts pre (preExecNs loader (create_module loader fresh) g)).1
          "_exception" (Value.exc ⟨.valueError, "boom"⟩), Option.none) := by
    show advanced_exec_module loader _ (create_module loader fresh) g = _
    rw [advanced_exec_module_run, hrun]
    simp [hcaught]
  refine ⟨hmain, ?_⟩
  rw [hmain]
  simp [nsSet]

/-- C4 witness: tolerated ValueError with one statement after the raise; the
result namespace is the pre-raise namespace with `_exception` recorded. -/
theorem c4_witness :
    ExcClass.valueError ∈ loaderVE.exceptions
    ∧ exec_module loaderVE
        ([] ++ Stmt.raiseStmt Option.none ⟨.valueError, "boom"⟩ ::
          [Stmt.assign Option.none "y" (Value.int 2)]) emptyNs []
      = (nsSet
          (runStmts [] (preExecNs loaderVE (create_module loaderVE emptyNs)
            [])).1
          "_exception" (Value.exc ⟨.valueError, "boom"⟩), Option.none)
    ∧ (exec_module loaderVE
        ([] ++ Stmt.raiseStmt Option.none ⟨.valueError, "boom"⟩ ::
          [Stmt.assign Option.none "y" (Value.int 2)]) emptyNs []).1
        "_exception" = some (Value.exc ⟨.valueError, "boom"⟩) :=
  ⟨List.mem_singleton.mpr rfl,
   c4_tolerated_valueerror loaderVE []
     [Stmt.assign Option.none "y" (Value.int 2)] Option.none emptyNs []
     (List.mem_singleton.mpr rfl) rfl⟩

/-! ### Claim C5 -/

/-- C5 (counterexample): the default configuration is not an empty tolerance
set — it tolerates the sentinel `ImportNbException`, so a notebook raising
that class has it caught and recorded instead of propagated. -/
theorem c5_counterexample :
    (advanced_exec_module ({} : Notebook)
        [Stmt.raiseStmt Option.none ⟨.importNbException, "boom"⟩] emptyNs
        []).2 = Option.none
    ∧ (advanced_exec_module ({} : Notebook)
        [Stmt.raiseStmt Option.none ⟨.importNbException, "boom"⟩] emptyNs
        []).1 "_exception"
      = some (Value.exc ⟨.importNbException, "boom"⟩) := ⟨rfl, rfl⟩

/-- C5 (amended): with the default loader configuration every exception
whose class is not the sentinel `ImportNbException` propagates unchanged to
the caller and is not recorded; in particular `ValueError("boom")`
propagates. -/
theorem c5_default_propagates (code : List Stmt) (fresh : PyNamespace)
    (g : List (String × Value)) (m : PyNamespace) (e : ExcInstance)
    (hrun : runStmts code
        (preExecNs ({} : Notebook) (create_module {} fresh) g) = (m, some e))
    (hcls : e.cls ≠ ExcClass.importNbException) :
    exec_module ({} : Notebook) code fresh g = (m, some e) := by
  show advanced_exec_module ({} : Notebook) code (create_module {} fresh) g
    = _
  rw [advanced_exec_module_run, hrun]
  have hmf : excMatches ({} : Notebook).exceptions e = false :=
    excMatches_default e hcls
  simp [hmf]

/-- C5 witness: with the default loader a raised `ValueError("boom")`
propagates unchanged. -/
theorem c5_witness :
    exec_module ({} : Notebook)
        [Stmt.raiseStmt Option.none ⟨.valueError, "boom"⟩] emptyNs []
      = (preExecNs ({} : Notebook) (create_module {} emptyNs) [],
        some ⟨.valueError, "boom"⟩) :=
  c5_default_propagates [Stmt.raiseStmt Option.none ⟨.valueError, "boom"⟩]
    emptyNs [] (preExecNs ({} : Notebook) (create_module {} emptyNs) [])
    ⟨.valueError, "boom"⟩ rfl (by decide)

/-! ### Claim C6 -/

/-- C6 (counterexample): a call-time global named `_exception` is merged
after the wrapper initialises `_exception = None`, so after a successful
execution the attribute equals the supplied value, not `None`. -/
theorem c6_counterexample :
    (advanced_exec_module ({} : Notebook) [] emptyNs
        [("_exception", Value.int 5)]).2 = Option.none
    ∧ (advanced_exec_module ({} : Notebook) [] emptyNs
        [("_exception", Value.int 5)]).1 "_exception" = some (Value.int 5) :=
  ⟨rfl, rfl⟩

/-- C6 (amended): after every execution the namespace contains both reserved
attributes `_capture` and `_exception`; and `_exception` equals `None` on
success provided neither the call-time globals nor the executed code rebinds
`_exception`. -/
theorem c6_reserved_attributes (loader : Notebook) (code : List Stmt)
    (module : PyNamespace) (g : List (String × Value)) :
    (((advanced_exec_module loader code module g).1 "_capture").isSome
      ∧ ((advanced_exec_module loader code module g).1 "_exception").isSome)
    ∧ ("_exception" ∉ g.map Prod.fst → "_exception" ∉ assignedNames code →
        (runStmts code (preExecNs loader module g)).2 = Option.none →
        (advanced_exec_module loader code module g).1 "_exception"
          = some Value.pyNone) := by
  refine ⟨⟨?_, ?_⟩, ?_⟩
  · refine advanced_fst_isSome _ _ _ _ _ ?_
    rw [show preExecNs loader module g "_capture"
      = some (Value.capture
        (capture_output loader.stdout loader.stderr loader.display))
      from nsSet_apply_same _ _ _]
    rfl
  · refine advanced_fst_isSome _ _ _ _ _ ?_
    rw [preExecNs_apply _ _ _ _ (by decide)]
    refine dictUpdate_isSome _ _ _ ?_
    rw [nsSet_apply_same]
    rfl
  · intro h1 h2 h3
    have hpres := runStmts_preserves code (preExecNs loader module g)
      "_exception" h2
    rw [advanced_exec_module_run]
    rcases hrun : runStmts code (preExecNs loader module g) with ⟨m, r⟩
    rw [hrun] at h3 hpres
    have hr : r = Option.none := h3
    subst hr
    show m "_exception" = some Value.pyNone
    have hpres' : m "_exception" = preExecNs loader module g "_exception" :=
      hpres
    rw [hpres', preExecNs_apply _ _ _ _ (by decide), dictUpdate_lookup,
      lookupLast_eq_none_of_not_mem g _ h1]
    simp [nsSet]

/-- C6 witness: default loader, empty notebook, no extra globals — both
reserved attributes present and `_exception` is `None`. -/
theorem c6_witness :
    (((advanced_exec_module ({} : Notebook) [] emptyNs []).1
        "_capture").isSome
      ∧ ((advanced_exec_module ({} : Notebook) [] emptyNs []).1
        "_exception").isSome)
    ∧ (advanced_exec_module ({} : Notebook) [] emptyNs []).1 "_exception"
      = some Value.pyNone :=
  ⟨(c6_reserved_attributes {} [] emptyNs []).1,
   (c6_reserved_attributes {} [] emptyNs []).2 (by simp)
     (by simp [assignedNames]) rfl⟩

/-! ### Claim C7 -/

/-- C7 (counterexample): when both the loader-configured and the call-time
globals bind the reserved key `_capture`, the call-time value does not win —
the execution wrapper overwrites it with the capture record. -/
theorem c7_counterexample :
    (exec_module ({ globals := [("_capture", Value.int 1)] } : Notebook) []
        emptyNs [("_capture", Value.int 2)]).1 "_capture"
      = some (Value.capture (capture_output false false false))
    ∧ some (Value.capture (capture_output false false false))
        ≠ some (Value.int 2) := ⟨rfl, by decide⟩

/-- C7 (amended): the namespace after execution contains every key of either
globals mapping; and for keys other than the reserved attributes
`_exception` and `_capture` that the executed code does not rebind, the
call-time binding wins, falling back to the loader-configured binding. -/
theorem c7_globals_merge (loader : Notebook) (code : List Stmt)
    (fresh : PyNamespace) (g : List (String × Value)) (k : String)
    (v w : Value) :
    (((lookupLast g k).isSome ∨ (lookupLast loader.globals k).isSome) →
        ((exec_module loader code fresh g).1 k).isSome)
    ∧ (k ≠ "_exception" → k ≠ "_capture" → k ∉ assignedNames code →
        (lookupLast g k = some v →
          (exec_module loader code fresh g).1 k = some v)
        ∧ (lookupLast g k = Option.none →
          lookupLast loader.globals k = some w →
          (exec_module loader code fresh g).1 k = some w)) := by
  constructor
  · intro hor
    refine advanced_fst_isSome _ _ _ _ _ ?_
    by_cases hc : k = "_capture"
    · subst hc
      rw [show preExecNs loader (create_module loader fresh) g "_capture"
        = some (Value.capture
          (capture_output loader.stdout loader.stderr loader.display))
        from nsSet_apply_same _ _ _]
      rfl
    · rw [preExecNs_apply _ _ _ _ hc, dictUpdate_lookup]
      cases hl : lookupLast g k with
      | some u => rfl
      | none =>
          rcases hor with hor | hor
          · rw [hl] at hor
            exact absurd hor (by simp)
          · by_cases he : k = "_exception"
            · subst he
              simp [nsSet]
            · rw [nsSet_apply_other _ _ _ _ he]
              show ((dictUpdate fresh loader.globals) k).isSome
              rw [dictUpdate_lookup]
              cases hlg : lookupLast loader.globals k with
              | some u => rfl
              | none =>
                  rw [hlg] at hor
                  exact absurd hor (by simp)
  · intro he hc ha
    have hfst : (exec_module loader code fresh g).1 k
        = preExecNs loader (create_module loader fresh) g k := by
      show (advanced_exec_module loader code (create_module loader fresh)
        g).1 k = _
      rw [advanced_fst_apply _ _ _ _ _ he, runStmts_preserves _ _ _ ha]
    constructor
    · intro hv
      rw [hfst, preExecNs_apply _ _ _ _ hc, dictUpdate_lookup, hv]
    · intro hnone hw
      rw [hfst, preExecNs_apply _ _ _ _ hc, dictUpdate_lookup, hnone,
        nsSet_apply_other _ _ _ _ he]
      show (dictUpdate fresh loader.globals) k = some w
      rw [dictUpdate_lookup, hw]

/-- C7 witness: loader globals bind `a` and `b`, call-time globals rebind
`b`; both keys are present, `b` holds the call-time value and `a` the
loader-configured one. -/
theorem c7_witness :
    ((exec_module
        ({ globals := [("a", Value.int 1), ("b", Value.int 2)] } : Notebook)
        [] emptyNs [("b", Value.int 3)]).1 "b").isSome
    ∧ (exec_module
        ({ globals := [("a", Value.int 1), ("b", Value.int 2)] } : Notebook)
        [] emptyNs [("b", Value.int 3)]).1 "b" = some (Value.int 3)
    ∧ (exec_module
        ({ globals := [("a", Value.int 1), ("b", Value.int 2)] } : Notebook)
        [] emptyNs [("b", Value.int 3)]).1 "a" = some (Value.int 1) :=
  ⟨(c7_globals_merge
      ({ globals := [("a", Value.int 1), ("b", Value.int 2)] } : Notebook)
      [] emptyNs [("b", Value.int 3)] "b" (Value.int 3) (Value.int 3)).1
      (Or.inl rfl),
   ((c7_globals_merge
      ({ globals := [("a", Value.int 1), ("b", Value.int 2)] } : Notebook)
      [] emptyNs [("b", Value.int 3)] "b" (Value.int 3) (Value.int 3)).2
      (by decide) (by decide) (by simp [assignedNames])).1 rfl,
   ((c7_globals_merge
      ({ globals := [("a", Value.int 1), ("b", Value.int 2)] } : Notebook)
      [] emptyNs [("b", Value.int 3)] "a" (Value.int 1) (Value.int 1)).2
      (by decide) (by decide) (by simp [assignedNames])).2 rfl rfl⟩

/-! ### Claim C8 -/

/-- C8: a notebook document with zero cells translates to an empty module
tree; executing the empty unit (with no configured or call-time globals)
succeeds, and the resulting namespace is unchanged except for the reserved
attributes `_exception` (set to `None`) and `_capture` (the capture
record). -/
theorem c8_empty_notebook (fmt : String → String)
    (parse : String → Except String (List Stmt)) (loader : Notebook)
    (fresh : PyNamespace) (ds : Option (List String)) (dt : Option String)
    (dm : Option (Option Int)) (hg : loader.globals = []) :
    visit fmt parse (JDict.mk (some []) ds dt dm) = .ok (.modNode [])
    ∧ (exec_module loader [] fresh []).2 = Option.none
    ∧ (exec_module loader [] fresh []).1 "_exception" = some Value.pyNone
    ∧ (exec_module loader [] fresh []).1 "_capture"
        = some (Value.capture
          (capture_output loader.stdout loader.stderr loader.display))
    ∧ ∀ k, k ≠ "_exception" → k ≠ "_capture" →
        (exec_module loader [] fresh []).1 k = fresh k := by
  have hres : exec_module loader [] fresh []
      = (preExecNs loader (create_module loader fresh) [], Option.none) := by
    show advanced_exec_module loader [] (create_module loader fresh) [] = _
    rw [advanced_exec_module_run]
    rfl
  have hfst : (exec_module loader [] fresh []).1
      = preExecNs loader (create_module loader fresh) [] := by
    rw [hres]
  refine ⟨rfl, ?_, ?_, ?_, ?_⟩
  · rw [hres]
  · rw [hfst, preExecNs_apply _ _ _ _ (by decide)]
    show nsSet (create_module loader fresh) "_exception" Value.pyNone
      "_exception" = some Value.pyNone
    exact nsSet_apply_same _ _ _
  · rw [hfst]
    exact nsSet_apply_same _ _ _
  · intro k h1 h2
    rw [hfst, preExecNs_apply _ _ _ _ h2]
    show nsSet (create_module loader fresh) "_exception" Value.pyNone k
      = fresh k
    rw [nsSet_apply_other _ _ _ _ h1]
    show dictUpdate fresh loader.globals k = fresh k
    rw [hg]
    rfl

/-- C8 witness: default loader, empty document, a non-reserved key `x` is
untouched. -/
theorem c8_witness :
    visit fmtId parseDemo
        (JDict.mk (some []) Option.none Option.none Option.none)
      = .ok (.modNode [])
    ∧ (exec_module ({} : Notebook) [] emptyNs []).2 = Option.none
    ∧ (exec_module ({} : Notebook) [] emptyNs []).1 "_exception"
        = some Value.pyNone
    ∧ (exec_module ({} : Notebook) [] emptyNs []).1 "_capture"
        = some (Value.capture (capture_output false false false))
    ∧ (exec_module ({} : Notebook) [] emptyNs []).1 "x" = emptyNs "x" :=
  have h := c8_empty_notebook fmtId parseDemo {} emptyNs Option.none
    Option.none Option.none rfl
  ⟨h.1, h.2.1, h.2.2.1, h.2.2.2.1, h.2.2.2.2 "x" (by decide) (by decide)⟩

/-! ### Claim C9 -/

/-- C9 (counterexample): a document mapping that lacks the `cells` key but
has a `source` key is not treated as an empty cell sequence — it is treated
as a single cell, here a code cell that translates to a non-empty module. -/
theorem c9_counterexample :
    visit fmtId parseDemo
        (JDict.mk Option.none (some ["x = 1 + 1"]) (some "code") Option.none)
      = .ok (.modNode [Stmt.assign (some 1) "x" (Value.int 2)])
    ∧ [Stmt.assign (some 1) "x" (Value.int 2)] ≠ ([] : List Stmt) :=
  ⟨rfl, by decide⟩

/-- C9 (amended): a document mapping that lacks both the `cells` key and the
`source` key is treated as empty: translation yields an empty module tree
rather than failing. -/
theorem c9_no_cells_no_source (fmt : String → String)
    (parse : String → Except String (List Stmt)) (ct : Option String)
    (md : Option (Option Int)) :
    visit fmt parse (JDict.mk Option.none Option.none ct md)
      = .ok (.modNode []) := rfl

/-! ### Claim C10 -/

/-- C10: when the compiled statements raise an exception outside the
tolerated set, the wrapper propagates it, while the namespace (mutated in
place before execution began) already holds `_exception = None` and the
capture record under `_capture` — so `_exception` being `None` does not
imply the execution completed. -/
theorem c10_propagation_state (loader : Notebook) (code : List Stmt)
    (module : PyNamespace) (g : List (String × Value)) (m : PyNamespace)
    (e : ExcInstance)
    (h1 : "_exception" ∉ g.map Prod.fst)
    (h2 : "_exception" ∉ assignedNames code)
    (h3 : "_capture" ∉ assignedNames code)
    (hrun : runStmts code (preExecNs loader module g) = (m, some e))
    (hnc : excMatches loader.exceptions e = false) :
    advanced_exec_module loader code module g = (m, some e)
    ∧ m "_exception" = some Value.pyNone
    ∧ m "_capture" = some (Value.capture
        (capture_output loader.stdout loader.stderr loader.display)) := by
  refine ⟨?_, ?_, ?_⟩
  · rw [advanced_exec_module_run, hrun]
    simp [hnc]
  · have hpres := runStmts_preserves code (preExecNs loader module g)
      "_exception" h2
    rw [hrun] at hpres
    have hpres' : m "_exception" = preExecNs loader module g "_exception" :=
      hpres
    rw [hpres', preExecNs_apply _ _ _ _ (by decide), dictUpdate_lookup,
      lookupLast_eq_none_of_not_mem g _ h1]
    simp [nsSet]
  · have hpres := runStmts_preserves code (preExecNs loader module g)
      "_capture" h3
    rw [hrun] at hpres
    have hpres' : m "_capture" = preExecNs loader module g "_capture" :=
      hpres
    rw [hpres']
    exact nsSet_apply_same _ _ _

/-- C10 witness: with the default loader a raised `ValueError` propagates
while the result namespace holds `_exception = None` and the capture
record. -/
theorem c10_witness :
    advanced_exec_module ({} : Notebook)
        [Stmt.raiseStmt Option.none ⟨.valueError, "x"⟩] emptyNs []
      = (preExecNs ({} : Notebook) emptyNs [], some ⟨.valueError, "x"⟩)
    ∧ preExecNs ({} : Notebook) emptyNs [] "_exception" = some Value.pyNone
    ∧ preExecNs ({} : Notebook) emptyNs [] "_capture"
        = some (Value.capture (capture_output false false false)) :=
  c10_propagation_state {} [Stmt.raiseStmt Option.none ⟨.valueError, "x"⟩]
    emptyNs [] (preExecNs ({} : Notebook) emptyNs [])
    ⟨.valueError, "x"⟩ (by simp) (by simp [assignedNames])
    (by simp [assignedNames]) rfl rfl

end ImportNb
